import Mathlib

/-!
Verification of the machine-manager mock server (src/mock_manager_server.py)
against its natural-language specification.

The embedding models the request handlers of `_MachineManager` (NewSession,
SessionRun, SessionStep) and `_MachineDiscovery` (CommunicateAddress), the
module-level configuration (DEFECTIVE flag, argparse defaults), and the
shutdown drain loop of `serve`.  The session registry itself lives in
`session_registry.py`, which is not part of the sources at hand; the few
registry operations the handlers call are modelled from the specification and
marked as such in their doc comments.
-/

namespace MachineManager

/-- Status codes of the gRPC transport used by the server (`grpc.StatusCode`):
only the three codes the source ever sets. -/
inductive StatusCode where
  | UNAVAILABLE
  | INVALID_ARGUMENT
  | UNKNOWN
  deriving DecidableEq, Repr

/-- Exceptions the handlers can observe: the three classes imported from
`session_registry` (line 30 of the source imports `SessionIdException`,
`AddressException`, `RollbackException` as three distinct names),
`utils.CycleException`, and a catch-all for any other `Exception`. -/
inductive ManagerError where
  | sessionIdException (m : String)
  | addressException (m : String)
  | cycleException (m : String)
  | rollbackException (m : String)
  | otherException (m : String)
  deriving DecidableEq, Repr

/-- Message carried by an exception, as `"{}".format(e)` renders it. -/
def ManagerError.msg : ManagerError → String
  | .sessionIdException m => m
  | .addressException m => m
  | .cycleException m => m
  | .rollbackException m => m
  | .otherException m => m

/-- Detail string set by the generic catch clauses:
`'An exception with message "{}" was raised!'.format(e)`. -/
def genericDetails (e : ManagerError) : String :=
  "An exception with message \"" ++ e.msg ++ "\" was raised!"

/-- One session of the registry as the server reads it: its optional
registered address (`registry[session_id].address`).  The per-session lock is
not modelled (the embedding is sequential). -/
structure SessionEntry where
  address : Option String
  deriving DecidableEq, Repr

/-- State of the `SessionRegistryManager` as the server reads it: the
`shutting_down` flag and the `registry` mapping, modelled as an association
list with unique keys (a Python dict). -/
structure ServerState where
  shutting_down : Bool
  registry : List (String × SessionEntry)
  deriving DecidableEq, Repr

/-- `cartesi_machine_pb2.Hash`: a message holding a byte string `content`. -/
structure Hash where
  content : List Nat
  deriving DecidableEq, Repr

/-- `bytes.fromhex("00")`: the placeholder fingerprint content. -/
def hash00 : Hash := ⟨[0x00]⟩

/-- `bytes.fromhex("01")`: the corrupted fingerprint content used by the
defective mode. -/
def hash01 : Hash := ⟨[0x01]⟩

/-- `cartesi_machine_pb2.RunResponse()`: the mock always builds the default
(empty) message. -/
inductive RunResponse where
  | mk
  deriving DecidableEq, Repr

/-- `machine_manager_pb2.SessionStepResponse()`: default (empty) message. -/
inductive SessionStepResponse where
  | mk
  deriving DecidableEq, Repr

/-- `cartesi_machine_pb2.Void()`: default (empty) message. -/
inductive VoidMessage where
  | mk
  deriving DecidableEq, Repr

/-- The session-run result message: parallel sequences of per-step summaries
and state fingerprints. -/
structure SessionRunResult where
  summaries : List RunResponse
  hashes : List Hash
  deriving DecidableEq, Repr

/-- Modelled from the spec: `utils.make_session_run_result` is not under
src/ (src/mock_manager_server.py only calls it at line 92).  Per the spec,
Session Run "produces a sequence of per-step summaries and a parallel sequence
of state fingerprints"; the constructor packs the two sequences into the
result message. -/
def make_session_run_result (summaries : List RunResponse) (hashes : List Hash) :
    SessionRunResult :=
  ⟨summaries, hashes⟩

/-- Outcome of one handler call: the returned response (if any), the status
code and detail string set on the gRPC context (if any), and the registry
after the call.  Python handlers that fall off a catch clause return `None`,
modelled as `response = none`. -/
structure HandlerOutcome (ρ : Type) where
  response : Option ρ
  code : Option StatusCode
  details : Option String
  registry : List (String × SessionEntry)
  deriving DecidableEq, Repr

/-- Detail message set by `ServerShuttingDown` (source line 53). -/
def shuttingDownDetails : String := "Server is shutting down, not accepting new requests"

/-- Request message of NewSession: the fields the source reads. -/
structure NewSessionRequest where
  session_id : String
  deriving DecidableEq, Repr

/-- Request message of SessionRun: the fields the source reads. -/
structure SessionRunRequest where
  session_id : String
  final_cycles : List Int
  deriving DecidableEq, Repr

/-- Request message of SessionStep. -/
structure SessionStepRequest where
  session_id : String
  initial_cycle : Int
  deriving DecidableEq, Repr

/-- Request message of CommunicateAddress: the fields the source reads. -/
structure AddressRequest where
  session_id : String
  address : String
  deriving DecidableEq, Repr

/-- Embedding of `_MachineManager.NewSession` (source lines 59-80).  The
handler first consults `ServerShuttingDown` (lines 51-57): if the flag is set
it sets UNAVAILABLE with the shutting-down details and returns `None`.
Otherwise the mock body returns the fixed initial hash
`Hash(content=bytes.fromhex("00"))` without ever touching the registry, so
none of its catch clauses is reachable. -/
def NewSession (req : NewSessionRequest) (st : ServerState) : HandlerOutcome Hash :=
  if st.shutting_down then
    ⟨none, some .UNAVAILABLE, some shuttingDownDetails, st.registry⟩
  else
    ⟨some hash00, none, none, st.registry⟩

/-- Embedding of `_MachineManager.SessionRun` (source lines 82-111).  After
the shutting-down check, the body unconditionally returns the fixed result:
two default `RunResponse` summaries and two hashes — `["00", "00"]` normally,
`["00", "01"]` when the module-level DEFECTIVE flag is set.  The statements
after `return run_result` (reading `session_id` and `final_cycles` and calling
`utils.validate_cycles`, source lines 95-100) are unreachable dead code, so
the handler never validates the requested cycles and none of its catch
clauses is reachable. -/
def SessionRun (defective : Bool) (req : SessionRunRequest) (st : ServerState) :
    HandlerOutcome SessionRunResult :=
  if st.shutting_down then
    ⟨none, some .UNAVAILABLE, some shuttingDownDetails, st.registry⟩
  else
    let summaries := [RunResponse.mk, RunResponse.mk]
    let hashes := if defective then [hash00, hash01] else [hash00, hash00]
    ⟨some (make_session_run_result summaries hashes), none, none, st.registry⟩

/-- Embedding of `_MachineManager.SessionStep` (source lines 113-130).  After
the shutting-down check, the body returns the empty `SessionStepResponse()`
without touching the registry. -/
def SessionStep (req : SessionStepRequest) (st : ServerState) :
    HandlerOutcome SessionStepResponse :=
  if st.shutting_down then
    ⟨none, some .UNAVAILABLE, some shuttingDownDetails, st.registry⟩
  else
    ⟨some .mk, none, none, st.registry⟩

/-- Lookup of a session id in the registry mapping. -/
def lookupSession (sid : String) : List (String × SessionEntry) → Option SessionEntry
  | [] => none
  | (k, e) :: rest => if k = sid then some e else lookupSession sid rest

/-- Update of the entry of a session id with a newly registered address. -/
def setAddress (sid addr : String) :
    List (String × SessionEntry) → List (String × SessionEntry)
  | [] => []
  | (k, e) :: rest =>
    if k = sid then (k, ⟨some addr⟩) :: rest else (k, e) :: setAddress sid addr rest

/-- Modelled from the spec:
`SessionRegistryManager.register_address_for_session` lives in
`session_registry.py`, which is not under src/ (the source imports it at line
30 and calls it at line 144).  Per the spec (section 4.1, `register_address`):
it fails with UnknownSession — raised as the imported `SessionIdException` —
when the session id is absent, fails with AddressAlreadySet — raised as the
imported `AddressException`, a class distinct from `SessionIdException` —
when the address is already set (one-time registration), and otherwise sets
the address. -/
def register_address_for_session (sid addr : String)
    (reg : List (String × SessionEntry)) :
    Except ManagerError (List (String × SessionEntry)) :=
  match lookupSession sid reg with
  | none => .error (.sessionIdException ("Session with id " ++ sid ++ " does not exist"))
  | some e =>
    match e.address with
    | some _ => .error (.addressException ("Address already set for session " ++ sid))
    | none => .ok (setAddress sid addr reg)

/-- Embedding of `_MachineDiscovery.CommunicateAddress` (source lines
137-158).  The handler does not consult the shutting-down flag.  It delegates
to `register_address_for_session` and returns `Void()`.  Its catch clauses:
`SessionIdException` is set as INVALID_ARGUMENT with the exception message as
details; any other exception — `AddressException` included — falls to the
generic catch and is set as UNKNOWN with the generic detail string. -/
def CommunicateAddress (req : AddressRequest) (st : ServerState) :
    HandlerOutcome VoidMessage :=
  match register_address_for_session req.session_id req.address st.registry with
  | .ok reg2 => ⟨some .mk, none, none, reg2⟩
  | .error e =>
    match e with
    | .sessionIdException m => ⟨none, some .INVALID_ARGUMENT, some m, st.registry⟩
    | e2 => ⟨none, some .UNKNOWN, some (genericDetails e2), st.registry⟩

/-- A list of cycle values is monotonically non-decreasing. -/
def monotoneNondecreasing : List Int → Bool
  | [] => true
  | [_] => true
  | a :: b :: rest => decide (a ≤ b) && monotoneNondecreasing (b :: rest)

/-- Well-formedness of requested target progress values, as the spec defines
it: monotonically non-decreasing and non-negative. -/
def wellFormedCycles (cs : List Int) : Bool :=
  cs.all (fun c => decide (0 ≤ c)) && monotoneNondecreasing cs

/-- Modelled from the spec: `utils.validate_cycles` lives in `utils.py`, which
is not under src/ (the source calls it at line 100, in code made unreachable
by the `return` at line 93).  Per the spec it fails with InvalidCycleRange —
raised as `utils.CycleException` — when the values are not well-formed. -/
def validate_cycles (cs : List Int) : Except ManagerError Unit :=
  if wellFormedCycles cs then .ok ()
  else .error (.cycleException "InvalidCycleRange: cycle values must be non-negative and non-decreasing")

/-- Embedding of the flag flip at the start of the shutdown sequence (source
lines 198-200): under the global lock, `shutting_down` is set to true. -/
def beginShutdown (st : ServerState) : ServerState :=
  { st with shutting_down := true }

/-- Embedding of the shutdown drain loop of `serve` (source lines 203-208):
iterate the registry entries in order; for each entry whose `address` is set,
invoke the stop primitive `utils.shutdown_cartesi_machine_server(session_id,
address)` — an external call that can fail (per the spec it returns
`Result<(), RemoteError)`).  The loop body has no try/except, so an exception
from the stop call propagates and aborts the loop.  The result is the list of
`(session_id, address)` stop calls attempted, in order, together with the
error that aborted the loop, if any. -/
def drainLoop (stopFn : String → String → Except String Unit) :
    List (String × SessionEntry) → List (String × String) × Option String
  | [] => ([], none)
  | (sid, e) :: rest =>
    match e.address with
    | none => drainLoop stopFn rest
    | some a =>
      match stopFn sid a with
      | .ok _ =>
        let r := drainLoop stopFn rest
        ((sid, a) :: r.1, r.2)
      | .error m => ([(sid, a)], some m)

/-- The stop calls the drain makes when no stop call fails: one per entry
whose address is set, in registry order. -/
def drainCalls (reg : List (String × SessionEntry)) : List (String × String) :=
  reg.filterMap (fun p => p.2.address.map (fun a => (p.1, a)))

/-- Module-level default of the listening address (source line 41). -/
def LISTENING_ADDRESS : String := "localhost"

/-- Module-level default of the listening port (source line 42). -/
def LISTENING_PORT : Nat := 50051

/-- Module-level initial value of the error-injection flag (source line 44). -/
def DEFECTIVE : Bool := false

/-- Embedding of the `--defective`/`-d` argparse flag (source lines 234-239):
an `action=store_true` option, so the parsed value is true exactly when the
flag appears on the command line and false by default.  The `--address` and
`--port` options take values and are irrelevant to the claims at hand. -/
def parsedDefective (argv : List String) : Bool :=
  argv.contains "--defective" || argv.contains "-d"

/-- Embedding of the DEFECTIVE assignment in `serve` (source lines 164-171):
the module-level DEFECTIVE (initially false) is set to true exactly when
`args.defective` is true, and left at its initial value otherwise. -/
def defectiveAfterServe (argsDefective : Bool) : Bool :=
  if argsDefective then true else DEFECTIVE

/-- A handler outcome is classified: it carries a response, or a status code
together with a detail message. -/
def responseOrError {ρ : Type} (o : HandlerOutcome ρ) : Prop :=
  o.response.isSome = true ∨ (o.code.isSome = true ∧ o.details.isSome = true)

/-- C1: once the `shutting_down` flag is set, each of the three
MachineManager handlers (NewSession, SessionRun, SessionStep) fails fast: it
returns no response, sets status UNAVAILABLE with the shutting-down detail
message, and performs no further work on the registry. -/
theorem C1_handlers_fail_fast_when_shutting_down
    (st : ServerState) (h : st.shutting_down = true)
    (reqN : NewSessionRequest) (reqR : SessionRunRequest)
    (reqS : SessionStepRequest) (d : Bool) :
    NewSession reqN st = ⟨none, some .UNAVAILABLE, some shuttingDownDetails, st.registry⟩ ∧
    SessionRun d reqR st = ⟨none, some .UNAVAILABLE, some shuttingDownDetails, st.registry⟩ ∧
    SessionStep reqS st = ⟨none, some .UNAVAILABLE, some shuttingDownDetails, st.registry⟩ := by
  refine ⟨?_, ?_, ?_⟩ <;> simp [NewSession, SessionRun, SessionStep, h]

/-- Witness for C1: a concrete shutting-down state and concrete requests. -/
theorem C1_witness :
    (ServerState.mk true []).shutting_down = true ∧
    (NewSession ⟨"S1"⟩ ⟨true, []⟩
        = ⟨none, some .UNAVAILABLE, some shuttingDownDetails, []⟩ ∧
      SessionRun false ⟨"S1", [100, 200]⟩ ⟨true, []⟩
        = ⟨none, some .UNAVAILABLE, some shuttingDownDetails, []⟩ ∧
      SessionStep ⟨"S1", 0⟩ ⟨true, []⟩
        = ⟨none, some .UNAVAILABLE, some shuttingDownDetails, []⟩) :=
  ⟨rfl, C1_handlers_fail_fast_when_shutting_down ⟨true, []⟩ rfl ⟨"S1"⟩
    ⟨"S1", [100, 200]⟩ ⟨"S1", 0⟩ false⟩

/-- Counterexample for C2: a SessionRun request asking for one checkpoint
([100]) still returns two summaries and two fingerprints, not one pair per
requested checkpoint. -/
theorem C2_counterexample :
    (SessionRun false ⟨"S1", [100]⟩ ⟨false, []⟩).response.map
        (fun r => r.summaries.length) = some 2 ∧
    (SessionRun false ⟨"S1", [100]⟩ ⟨false, []⟩).response.map
        (fun r => r.hashes.length) = some 2 ∧
    ¬ (SessionRun false ⟨"S1", [100]⟩ ⟨false, []⟩).response.map
        (fun r => r.summaries.length) = some (([100] : List Int).length) := by
  decide

/-- C2 amended: for every SessionRun request handled while the server is not
shutting down, the returned result contains exactly two per-step summaries
and exactly two state fingerprints, regardless of how many checkpoint values
the request carries. -/
theorem C2_amended_two_fixed_results (d : Bool) (req : SessionRunRequest)
    (st : ServerState) (h : st.shutting_down = false) :
    (SessionRun d req st).response.map
        (fun r => (r.summaries.length, r.hashes.length)) = some (2, 2) := by
  cases d <;> simp [SessionRun, h, make_session_run_result]

/-- Witness for the amended C2: a concrete non-shutting-down call. -/
theorem C2_amended_witness :
    (ServerState.mk false []).shutting_down = false ∧
    (SessionRun false ⟨"S1", [100, 200]⟩ ⟨false, []⟩).response.map
        (fun r => (r.summaries.length, r.hashes.length)) = some (2, 2) :=
  ⟨rfl, C2_amended_two_fixed_results false ⟨"S1", [100, 200]⟩ ⟨false, []⟩ rfl⟩

/-- Counterexample for C3: the target progress values [100, 50] are not
well-formed (not non-decreasing), yet SessionRun reports no error — it sets
no status code and returns the fixed success result, because the call to
`utils.validate_cycles` in the source sits after an unconditional `return`
and is never executed. -/
theorem C3_counterexample :
    wellFormedCycles [100, 50] = false ∧
    (SessionRun false ⟨"S1", [100, 50]⟩ ⟨false, []⟩).code = none ∧
    (SessionRun false ⟨"S1", [100, 50]⟩ ⟨false, []⟩).response.isSome = true := by
  decide

/-- C3 amended: SessionRun performs no cycle validation: when the server is
not shutting down, every request — including one whose target progress values
are not well-formed — yields the fixed success result with no status code
set, so no InvalidCycleRange error is ever surfaced. -/
theorem C3_amended_no_cycle_validation (d : Bool) (req : SessionRunRequest)
    (st : ServerState) (h : st.shutting_down = false)
    (hbad : wellFormedCycles req.final_cycles = false) :
    (SessionRun d req st).code = none ∧
    (SessionRun d req st).response.isSome = true := by
  cases d <;> simp [SessionRun, h]

/-- Witness for the amended C3: a concrete ill-formed request. -/
theorem C3_amended_witness :
    (ServerState.mk false []).shutting_down = false ∧
    wellFormedCycles [100, 50] = false ∧
    ((SessionRun false ⟨"S1", [100, 50]⟩ ⟨false, []⟩).code = none ∧
      (SessionRun false ⟨"S1", [100, 50]⟩ ⟨false, []⟩).response.isSome = true) :=
  ⟨rfl, by decide,
    C3_amended_no_cycle_validation false ⟨"S1", [100, 50]⟩ ⟨false, []⟩ rfl (by decide)⟩

/-- Counterexample for C4: two NewSession requests with the same session id
"S1", the second handled in the state the first left behind: the second call
succeeds — it returns the fixed initial hash and sets no status code — rather
than failing with DuplicateSession. -/
theorem C4_counterexample :
    (NewSession ⟨"S1"⟩ ⟨false, []⟩).response = some hash00 ∧
    (NewSession ⟨"S1"⟩ ⟨false, []⟩).code = none ∧
    (NewSession ⟨"S1"⟩ ⟨false, (NewSession ⟨"S1"⟩ ⟨false, []⟩).registry⟩).response
      = some hash00 ∧
    (NewSession ⟨"S1"⟩ ⟨false, (NewSession ⟨"S1"⟩ ⟨false, []⟩).registry⟩).code = none := by
  decide

/-- C4 amended: the mock NewSession never calls the registry: for every pair
of NewSession requests with the same session id handled while the server is
not shutting down, both calls succeed with the fixed initial hash and no
status code, and neither call mutates the registry. -/
theorem C4_amended_duplicate_newsession_succeeds (sid : String)
    (st : ServerState) (h : st.shutting_down = false) :
    NewSession ⟨sid⟩ st = ⟨some hash00, none, none, st.registry⟩ ∧
    NewSession ⟨sid⟩ ⟨st.shutting_down, (NewSession ⟨sid⟩ st).registry⟩
      = ⟨some hash00, none, none, st.registry⟩ := by
  simp [NewSession, h]

/-- Witness for the amended C4: a concrete duplicated session id. -/
theorem C4_amended_witness :
    (ServerState.mk false []).shutting_down = false ∧
    (NewSession ⟨"S1"⟩ ⟨false, []⟩ = ⟨some hash00, none, none, []⟩ ∧
      NewSession ⟨"S1"⟩ ⟨(ServerState.mk false []).shutting_down,
          (NewSession ⟨"S1"⟩ ⟨false, []⟩).registry⟩
        = ⟨some hash00, none, none, []⟩) :=
  ⟨rfl, C4_amended_duplicate_newsession_succeeds "S1" ⟨false, []⟩ rfl⟩

/-- When no stop call fails, the drain loop visits every entry and makes
exactly the calls of `drainCalls`, with no aborting error. -/
theorem drainLoop_of_ok (stopFn : String → String → Except String Unit)
    (hok : ∀ s a, stopFn s a = .ok ()) :
    ∀ reg, drainLoop stopFn reg = (drainCalls reg, none) := by
  intro reg
  induction reg with
  | nil => rfl
  | cons p rest ih =>
    obtain ⟨sid, e⟩ := p
    cases ha : e.address with
    | none => simp [drainLoop, drainCalls, List.filterMap_cons, ha, ih]
    | some a => simp [drainLoop, drainCalls, List.filterMap_cons, ha, hok, ih]

/-- Membership in the drain calls: a call `(sid, a)` is made exactly when some
entry of the registry has key `sid` and registered address `a`. -/
theorem mem_drainCalls {reg : List (String × SessionEntry)} {sid a : String} :
    (sid, a) ∈ drainCalls reg ↔
      ∃ e : SessionEntry, (sid, e) ∈ reg ∧ e.address = some a := by
  simp only [drainCalls, List.mem_filterMap]
  constructor
  · rintro ⟨⟨s, e⟩, hmem, hf⟩
    simp only [Option.map_eq_some'] at hf
    obtain ⟨b, hb, heq⟩ := hf
    obtain ⟨rfl, rfl⟩ := Prod.mk.injEq .. ▸ heq
    exact ⟨e, hmem, hb⟩
  · rintro ⟨e, hmem, ha⟩
    exact ⟨(sid, e), hmem, by simp [ha]⟩

/-- The session ids of the drain calls form a sublist of the registry keys. -/
theorem drainCalls_fst_sublist :
    ∀ reg : List (String × SessionEntry),
      ((drainCalls reg).map Prod.fst).Sublist (reg.map Prod.fst) := by
  intro reg
  induction reg with
  | nil => exact List.Sublist.refl _
  | cons p rest ih =>
    obtain ⟨sid, e⟩ := p
    cases ha : e.address with
    | none =>
      simpa [drainCalls, List.filterMap_cons, ha] using ih.cons sid
    | some a =>
      simpa [drainCalls, List.filterMap_cons, ha] using ih.cons₂ sid

/-- An element of a duplicate-free list is counted exactly once. -/
theorem countP_eq_one_of_nodup_mem {α : Type _} [DecidableEq α] {l : List α} {x : α}
    (hnd : l.Nodup) (hx : x ∈ l) : l.countP (fun c => decide (c = x)) = 1 := by
  induction l with
  | nil => cases hx
  | cons a l ih =>
    rw [List.countP_cons]
    rcases List.mem_cons.mp hx with rfl | hx'
    · have hzero : l.countP (fun c => decide (c = x)) = 0 := by
        apply List.countP_eq_zero.mpr
        intro c hc
        simp only [decide_eq_true_eq]
        rintro rfl
        exact (List.nodup_cons.mp hnd).1 hc
      simp [hzero]
    · have hax : ¬ a = x := fun h => (List.nodup_cons.mp hnd).1 (h ▸ hx')
      simp [ih (List.nodup_cons.mp hnd).2 hx', hax]

/-- In a registry with unique keys, the entry of a key is unique. -/
theorem nodup_keys_entry_unique {reg : List (String × SessionEntry)}
    (hkeys : (reg.map Prod.fst).Nodup) {sid : String} {e₁ e₂ : SessionEntry}
    (h₁ : (sid, e₁) ∈ reg) (h₂ : (sid, e₂) ∈ reg) : e₁ = e₂ := by
  induction reg with
  | nil => cases h₁
  | cons p rest ih =>
    obtain ⟨k, e⟩ := p
    simp only [List.map_cons, List.nodup_cons] at hkeys
    rcases List.mem_cons.mp h₁ with h | h
    · obtain ⟨rfl, rfl⟩ := Prod.mk.injEq .. ▸ h
      rcases List.mem_cons.mp h₂ with h' | h'
      · exact (Prod.mk.injEq .. ▸ h').2.symm
      · exact absurd (List.mem_map.mpr ⟨(sid, e₂), h', rfl⟩) hkeys.1
    · rcases List.mem_cons.mp h₂ with h' | h'
      · obtain ⟨rfl, rfl⟩ := Prod.mk.injEq .. ▸ h'
        exact absurd (List.mem_map.mpr ⟨(sid, e₁), h, rfl⟩) hkeys.1
      · exact ih hkeys.2 h h'

/-- C5 amended: when the stop primitive succeeds on every call and the
registry keys are unique, the shutdown drain invokes the stop primitive
exactly once for every registry entry whose address is set, and never for an
entry whose address is unset, whatever order the entries are stored in.  The
success hypothesis is necessary: the stop primitive is fallible, and a
failing call aborts the drain, leaving later addressed entries uncontacted
(see the counterexample below and C6). -/
theorem C5_drain_stops_each_addressed_entry_once
    (stopFn : String → String → Except String Unit)
    (hok : ∀ s a, stopFn s a = .ok ())
    (reg : List (String × SessionEntry))
    (hkeys : (reg.map Prod.fst).Nodup)
    (sid : String) (e : SessionEntry) (hmem : (sid, e) ∈ reg) :
    (∀ a, e.address = some a →
      ((drainLoop stopFn reg).1.countP (fun c => decide (c = (sid, a)))) = 1) ∧
    (e.address = none → ∀ a, (sid, a) ∉ (drainLoop stopFn reg).1) := by
  rw [drainLoop_of_ok stopFn hok reg]
  have hnd : (drainCalls reg).Nodup :=
    List.Nodup.of_map Prod.fst (List.Nodup.sublist (drainCalls_fst_sublist reg) hkeys)
  constructor
  · intro a ha
    exact countP_eq_one_of_nodup_mem hnd (mem_drainCalls.mpr ⟨e, hmem, ha⟩)
  · intro hnone a hcall
    obtain ⟨e', hmem', ha'⟩ := mem_drainCalls.mp hcall
    rw [nodup_keys_entry_unique hkeys hmem' hmem] at ha'
    rw [hnone] at ha'
    cases ha'

/-- A stop primitive that always succeeds, for the C5 witness. -/
def stopFnOk : String → String → Except String Unit := fun _ _ => .ok ()

/-- A two-entry registry, one addressed and one not, for the C5 witness. -/
def demoRegistry : List (String × SessionEntry) :=
  [("S1", ⟨some "10.0.0.1:9000"⟩), ("S2", ⟨none⟩)]

/-- Witness for C5: on the concrete registry, the addressed entry "S1" is
stopped exactly once and the unaddressed entry "S2" is never contacted. -/
theorem C5_witness :
    ((drainLoop stopFnOk demoRegistry).1.countP
        (fun c => decide (c = ("S1", "10.0.0.1:9000")))) = 1 ∧
    ("S2", "10.0.0.2:9000") ∉ (drainLoop stopFnOk demoRegistry).1 :=
  ⟨(C5_drain_stops_each_addressed_entry_once stopFnOk (fun _ _ => rfl) demoRegistry
      (by decide) "S1" ⟨some "10.0.0.1:9000"⟩ (by decide)).1 "10.0.0.1:9000" rfl,
    (C5_drain_stops_each_addressed_entry_once stopFnOk (fun _ _ => rfl) demoRegistry
      (by decide) "S2" ⟨none⟩ (by decide)).2 rfl "10.0.0.2:9000"⟩

/-- A stop primitive failing exactly on session "S1", for C6. -/
def stopFnBoom : String → String → Except String Unit :=
  fun sid _ => if sid = "S1" then .error "boom" else .ok ()

/-- Counterexample for C5: the invoked-exactly-once claim is not
unconditional: with a registry of two addressed entries and a stop primitive
that fails on the first ("S1"), the addressed entry "S2" is stopped zero
times, not exactly once. -/
theorem C5_counterexample :
    (SessionEntry.mk (some "10.0.0.2:9000")).address = some "10.0.0.2:9000" ∧
    ((drainLoop stopFnBoom
        [("S1", ⟨some "10.0.0.1:9000"⟩), ("S2", ⟨some "10.0.0.2:9000"⟩)]).1.countP
        (fun c => decide (c = ("S2", "10.0.0.2:9000")))) = 0 ∧
    ¬ ((drainLoop stopFnBoom
        [("S1", ⟨some "10.0.0.1:9000"⟩), ("S2", ⟨some "10.0.0.2:9000"⟩)]).1.countP
        (fun c => decide (c = ("S2", "10.0.0.2:9000")))) = 1 := by
  decide

/-- Counterexample for C6: with a registry of two addressed entries and a
stop primitive that raises on the first ("S1"), the drain aborts with the
error and the stop primitive is never invoked for the second entry ("S2"),
contradicting the claim that an error on one entry never prevents stopping
later entries. -/
theorem C6_counterexample :
    (SessionEntry.mk (some "10.0.0.2:9000")).address = some "10.0.0.2:9000" ∧
    (drainLoop stopFnBoom
        [("S1", ⟨some "10.0.0.1:9000"⟩), ("S2", ⟨some "10.0.0.2:9000"⟩)]).2
      = some "boom" ∧
    ("S2", "10.0.0.2:9000") ∉ (drainLoop stopFnBoom
        [("S1", ⟨some "10.0.0.1:9000"⟩), ("S2", ⟨some "10.0.0.2:9000"⟩)]).1 := by
  decide

/-- C6 amended: the drain loop has no error handling: if the stop primitive
fails on one addressed entry, the error propagates and aborts the drain — the
calls made are exactly those for the addressed entries before the failing one
plus the failing call itself, and no entry after the failing one is ever
contacted. -/
theorem C6_amended_drain_aborts_on_error
    (stopFn : String → String → Except String Unit)
    (pre post : List (String × SessionEntry)) (sid a m : String) (e : SessionEntry)
    (he : e.address = some a) (hfail : stopFn sid a = .error m)
    (hpre : ∀ s b en, (s, en) ∈ pre → en.address = some b → stopFn s b = .ok ()) :
    drainLoop stopFn (pre ++ (sid, e) :: post) = (drainCalls pre ++ [(sid, a)], some m) := by
  induction pre with
  | nil => simp [drainLoop, drainCalls, he, hfail]
  | cons p rest ih =>
    obtain ⟨s, en⟩ := p
    have ih' := ih (fun s' b' en' hm hb => hpre s' b' en' (List.mem_cons_of_mem _ hm) hb)
    cases ha : en.address with
    | none =>
      simpa [drainLoop, drainCalls, List.filterMap_cons, ha] using ih'
    | some b =>
      have hsb : stopFn s b = .ok () := hpre s b en (List.mem_cons_self _ _) ha
      simp [drainLoop, drainCalls, List.filterMap_cons, ha, hsb, ih']

/-- Witness for the amended C6: a concrete drain over an unaddressed entry,
then the failing entry "S1", then a later entry "S2": the result is the
single failing call and the propagated error, so "S2" is never contacted. -/
theorem C6_amended_witness :
    drainLoop stopFnBoom
        [("S0", ⟨none⟩), ("S1", ⟨some "10.0.0.1:9000"⟩), ("S2", ⟨some "10.0.0.2:9000"⟩)]
      = (drainCalls [("S0", ⟨none⟩)] ++ [("S1", "10.0.0.1:9000")], some "boom") :=
  C6_amended_drain_aborts_on_error stopFnBoom [("S0", ⟨none⟩)]
    [("S2", ⟨some "10.0.0.2:9000"⟩)] "S1" "10.0.0.1:9000" "boom"
    ⟨some "10.0.0.1:9000"⟩ rfl rfl
    (by
      intro s b en hm hb
      simp only [List.mem_singleton] at hm
      obtain ⟨rfl, rfl⟩ := Prod.mk.injEq .. ▸ hm
      simp at hb)

/-- Counterexample for C7: an AddressAlreadySet failure raised inside
CommunicateAddress — registering an address for session "S1" whose address is
already set — is reported with status UNKNOWN, not INVALID_ARGUMENT, because
the handler's specific catch clause covers only SessionIdException. -/
theorem C7_counterexample :
    (CommunicateAddress ⟨"S1", "10.0.0.2:9000"⟩
        ⟨false, [("S1", ⟨some "10.0.0.1:9000"⟩)]⟩).code = some .UNKNOWN ∧
    ¬ (CommunicateAddress ⟨"S1", "10.0.0.2:9000"⟩
        ⟨false, [("S1", ⟨some "10.0.0.1:9000"⟩)]⟩).code = some .INVALID_ARGUMENT := by
  decide

/-- C7 amended: the failure-to-code mapping the handlers actually surface:
the shutting-down failure maps to UNAVAILABLE in all three MachineManager
handlers; an UnknownSession failure in CommunicateAddress maps to
INVALID_ARGUMENT; but an AddressAlreadySet failure in CommunicateAddress
falls to the generic catch and maps to UNKNOWN, because CommunicateAddress
classifies only SessionIdException (the first-registered address is
retained, the registry being left unchanged on failure). -/
theorem C7_amended_surfaced_code_mapping
    (d : Bool) (st : ServerState) (h : st.shutting_down = true)
    (reqN : NewSessionRequest) (reqR : SessionRunRequest) (reqS : SessionStepRequest)
    (reqC₁ : AddressRequest) (st₁ : ServerState)
    (h₁ : lookupSession reqC₁.session_id st₁.registry = none)
    (reqC₂ : AddressRequest) (st₂ : ServerState) (e : SessionEntry) (a : String)
    (h₂ : lookupSession reqC₂.session_id st₂.registry = some e)
    (ha : e.address = some a) :
    (NewSession reqN st).code = some .UNAVAILABLE ∧
    (SessionRun d reqR st).code = some .UNAVAILABLE ∧
    (SessionStep reqS st).code = some .UNAVAILABLE ∧
    (CommunicateAddress reqC₁ st₁).code = some .INVALID_ARGUMENT ∧
    ((CommunicateAddress reqC₂ st₂).code = some .UNKNOWN ∧
      (CommunicateAddress reqC₂ st₂).registry = st₂.registry) := by
  refine ⟨?_, ?_, ?_, ?_, ?_⟩
  · simp [NewSession, h]
  · simp [SessionRun, h]
  · simp [SessionStep, h]
  · simp [CommunicateAddress, register_address_for_session, h₁]
  · simp [CommunicateAddress, register_address_for_session, h₂, ha]

/-- Witness for the amended C7: concrete shutting-down state, a concrete
unknown session, and a concrete session with an already-registered address. -/
theorem C7_amended_witness :
    (NewSession ⟨"S1"⟩ ⟨true, []⟩).code = some .UNAVAILABLE ∧
    (SessionRun false ⟨"S1", [100]⟩ ⟨true, []⟩).code = some .UNAVAILABLE ∧
    (SessionStep ⟨"S1", 0⟩ ⟨true, []⟩).code = some .UNAVAILABLE ∧
    (CommunicateAddress ⟨"S9", "10.0.0.3:9000"⟩ ⟨false, []⟩).code
      = some .INVALID_ARGUMENT ∧
    ((CommunicateAddress ⟨"S1", "10.0.0.2:9000"⟩
        ⟨false, [("S1", ⟨some "10.0.0.1:9000"⟩)]⟩).code = some .UNKNOWN ∧
      (CommunicateAddress ⟨"S1", "10.0.0.2:9000"⟩
          ⟨false, [("S1", ⟨some "10.0.0.1:9000"⟩)]⟩).registry
        = [("S1", ⟨some "10.0.0.1:9000"⟩)]) :=
  C7_amended_surfaced_code_mapping false ⟨true, []⟩ rfl ⟨"S1"⟩ ⟨"S1", [100]⟩
    ⟨"S1", 0⟩ ⟨"S9", "10.0.0.3:9000"⟩ ⟨false, []⟩ rfl ⟨"S1", "10.0.0.2:9000"⟩
    ⟨false, [("S1", ⟨some "10.0.0.1:9000"⟩)]⟩ ⟨some "10.0.0.1:9000"⟩
    "10.0.0.1:9000" (by decide) rfl

/-- C8: every handler is total at its boundary: for every request and state,
the call returns an outcome that either carries a response or carries a
status code together with a detail message — no outcome is an unclassified
failure, matching the catch-all clauses at the end of each handler body. -/
theorem C8_handlers_total (reqN : NewSessionRequest) (reqR : SessionRunRequest)
    (reqS : SessionStepRequest) (reqC : AddressRequest) (d : Bool) (st : ServerState) :
    responseOrError (NewSession reqN st) ∧
    responseOrError (SessionRun d reqR st) ∧
    responseOrError (SessionStep reqS st) ∧
    responseOrError (CommunicateAddress reqC st) := by
  refine ⟨?_, ?_, ?_, ?_⟩
  · cases hsd : st.shutting_down <;> simp [NewSession, responseOrError, hsd]
  · cases hsd : st.shutting_down <;> simp [SessionRun, responseOrError, hsd]
  · cases hsd : st.shutting_down <;> simp [SessionStep, responseOrError, hsd]
  · unfold CommunicateAddress
    cases hr : register_address_for_session reqC.session_id reqC.address st.registry with
    | ok reg2 => simp [responseOrError]
    | error e => cases e <;> simp [responseOrError]

/-- C9: the error-injection mode is opt-in and never default-on: the
module-level DEFECTIVE is false; the parsed flag is true exactly when
`--defective` or `-d` is passed; serve turns the mode on exactly when the
parsed flag is true; with the mode off SessionRun returns two equal
placeholder fingerprints, and with it on exactly one of the two returned
fingerprints differs from the placeholder. -/
theorem C9_defective_opt_in (argv : List String) (st : ServerState)
    (h : st.shutting_down = false) (req : SessionRunRequest) :
    DEFECTIVE = false ∧
    (parsedDefective argv = true ↔ ("--defective" ∈ argv ∨ "-d" ∈ argv)) ∧
    defectiveAfterServe false = false ∧
    defectiveAfterServe true = true ∧
    (SessionRun false req st).response.map (fun r => r.hashes)
      = some [hash00, hash00] ∧
    (SessionRun true req st).response.map
        (fun r => r.hashes.countP (fun x => decide (¬ x = hash00))) = some 1 := by
  refine ⟨rfl, ?_, rfl, rfl, ?_, ?_⟩
  · simp [parsedDefective]
  · simp [SessionRun, h, make_session_run_result]
  · simp [SessionRun, h, make_session_run_result]
    decide

/-- Witness for C9: empty command line and a concrete non-shutting-down
SessionRun call under each value of the flag. -/
theorem C9_witness :
    DEFECTIVE = false ∧
    (parsedDefective [] = true ↔ ("--defective" ∈ ([] : List String) ∨ "-d" ∈ ([] : List String))) ∧
    defectiveAfterServe false = false ∧
    defectiveAfterServe true = true ∧
    (SessionRun false ⟨"S1", [100, 200]⟩ ⟨false, []⟩).response.map (fun r => r.hashes)
      = some [hash00, hash00] ∧
    (SessionRun true ⟨"S1", [100, 200]⟩ ⟨false, []⟩).response.map
        (fun r => r.hashes.countP (fun x => decide (¬ x = hash00))) = some 1 :=
  C9_defective_opt_in [] ⟨false, []⟩ rfl ⟨"S1", [100, 200]⟩

/-- C10: while the server is not shutting down and under a fixed value of the
DEFECTIVE flag, the SessionRun response is the same for every request and
state: it depends neither on the session id nor on the requested final
cycles. -/
theorem C10_run_response_independent_of_request (d : Bool)
    (req₁ req₂ : SessionRunRequest) (st₁ st₂ : ServerState)
    (h₁ : st₁.shutting_down = false) (h₂ : st₂.shutting_down = false) :
    (SessionRun d req₁ st₁).response = (SessionRun d req₂ st₂).response := by
  simp [SessionRun, h₁, h₂]

/-- Witness for C10: two concrete requests with different session ids, final
cycles and registries receive the same response. -/
theorem C10_witness :
    (SessionRun false ⟨"S1", [100]⟩ ⟨false, []⟩).response
      = (SessionRun false ⟨"S2", [1, 2, 3]⟩ ⟨false, [("S1", ⟨none⟩)]⟩).response :=
  C10_run_response_independent_of_request false ⟨"S1", [100]⟩ ⟨"S2", [1, 2, 3]⟩
    ⟨false, []⟩ ⟨false, [("S1", ⟨none⟩)]⟩ rfl rfl

end MachineManager
